import Mathlib

/-!
Verification of the pacman-rs game core (`game/src/{maze,entities,state}.rs`).

The Rust code is shallowly embedded over exact rationals: every `f64` of the
source becomes a `ℚ`.  All floating-point values that actually arise in the
concrete states evaluated below are small dyadic rationals, on which `f64`
arithmetic is exact, so the embedding computes the very same numbers as the
binary.  Machine-integer casts are modelled explicitly:

* `f64::round` (round half away from zero) is `fround`;
* `as isize` on an `f64` (truncation toward zero) is `rtrunc`;
* `as usize` on a non-negative-or-saturating cast is `Int.toNat` (negative
  values saturate to `0`, exactly as Rust saturating float-to-int casts do);
* Rust `%` on `isize` (remainder with the sign of the dividend) is `Int.tmod`;
* Rust `%` on `f64` (truncated remainder) is `fmod`.

`usize` counters (`score`, `lives`, `dots_remaining`, `level`) are modelled as
`ℕ`; the only subtraction performed on them in the source is guarded (lives)
or performed on a positive count (dots), so truncated `Nat` subtraction agrees
with the source on every state considered here.
-/

namespace PacmanRs

-- The arithmetic on `ℚ` is `@[irreducible]` upstream; re-enable unfolding so
-- that concrete states can be evaluated by `decide`.
attribute [local semireducible] Rat.add Rat.sub Rat.mul Rat.inv Rat.ofScientific

/-- `f64::round`: round half away from zero.  (`Rat.floor` is used rather
than `⌊·⌋` so that the definition evaluates inside the kernel; the two agree,
see `ratFloor_eq` below.) -/
def fround (q : ℚ) : ℤ :=
  if 0 ≤ q then Rat.floor (q + 1/2) else -Rat.floor (-q + 1/2)

/-- `as isize` applied to an `f64`: truncation toward zero. -/
def rtrunc (q : ℚ) : ℤ :=
  if 0 ≤ q then Rat.floor q else -Rat.floor (-q)

/-- Rust `%` on `f64`: truncated remainder (sign of the dividend). -/
def fmod (a b : ℚ) : ℚ :=
  a - b * (rtrunc (a / b) : ℤ)

-- ─── entities.rs ────────────────────────────────────────────────────────────

/-- `Direction` (entities.rs). -/
inductive Direction where
  | Up
  | Down
  | Left
  | Right
deriving DecidableEq, Repr

/-- Modelled from the spec: every direction has an opposite (§3 of the spec;
`Direction::opposite` is called by `state.rs` but its impl is not among the
provided source files). -/
def Direction.opposite : Direction → Direction
  | .Up => .Down
  | .Down => .Up
  | .Left => .Right
  | .Right => .Left

/-- Modelled from the spec: every direction has a unit vector (§3 of the spec;
`Direction::to_vector` is called by `state.rs` but its impl is not among the
provided source files).  `y` grows downward, as the movement code of
`state.rs` requires (`Up` decreases `y`). -/
def Direction.to_vector : Direction → ℚ × ℚ
  | .Up => (0, -1)
  | .Down => (0, 1)
  | .Left => (-1, 0)
  | .Right => (1, 0)

/-- The `dx as isize` / `dy as isize` casts of the unit vector used by
`get_ghost_target` (exact on `±1`/`0`). -/
def Direction.to_vector_z : Direction → ℤ × ℤ
  | .Up => (0, -1)
  | .Down => (0, 1)
  | .Left => (-1, 0)
  | .Right => (1, 0)

/-- `Position` (entities.rs): continuous coordinates, `f64` embedded as `ℚ`. -/
structure Position where
  x : ℚ
  y : ℚ
deriving DecidableEq, Repr

instance : Inhabited Position := ⟨⟨0, 0⟩⟩

/-- `Position::to_grid`: `(self.x.round() as usize, self.y.round() as usize)`.
The `as usize` cast saturates negative values to 0. -/
def Position.to_grid (p : Position) : ℕ × ℕ :=
  ((fround p.x).toNat, (fround p.y).toNat)

/-- `PacMan` (entities.rs). -/
structure PacMan where
  position : Position
  direction : Direction
  next_direction : Direction
  lives : ℕ
  score : ℕ
deriving DecidableEq, Repr

/-- `PacMan::new`. -/
def PacMan.new : PacMan :=
  { position := ⟨14, 23⟩
    direction := .Left
    next_direction := .Left
    lives := 3
    score := 0 }

/-- `GhostType` (entities.rs). -/
inductive GhostType where
  | Blinky
  | Pinky
  | Inky
  | Clyde
deriving DecidableEq, Repr

/-- `GhostMode` (entities.rs). -/
inductive GhostMode where
  | Chase
  | Scatter
  | Frightened
  | Eaten
deriving DecidableEq, Repr

/-- `Ghost` (state of one ghost).  `state.rs` reads and writes
`ghost.next_direction` (PvP player control), although the copy of
`entities.rs` in the sources omits the field from the struct declaration; it
is included here as the code requires (spec §3 calls it `pending_direction`). -/
structure Ghost where
  ghost_type : GhostType
  position : Position
  direction : Direction
  mode : GhostMode
  next_direction : Direction
deriving DecidableEq, Repr

instance : Inhabited Ghost :=
  ⟨{ ghost_type := .Blinky, position := ⟨0, 0⟩, direction := .Up,
     mode := .Scatter, next_direction := .Up }⟩

/-- `Ghost::new`: faces `Up`, starts in `Scatter`.  (`next_direction` is
initialised to the initial facing; it is only ever read in PvP mode for
ghost index 0 after being set through the interface.) -/
def Ghost.new (t : GhostType) (p : Position) : Ghost :=
  { ghost_type := t, position := p, direction := .Up, mode := .Scatter,
    next_direction := .Up }

/-- `Ghost::create_all`. -/
def Ghost.create_all : List Ghost :=
  [Ghost.new .Blinky ⟨14, 11⟩,
   Ghost.new .Pinky ⟨12, 14⟩,
   Ghost.new .Inky ⟨14, 14⟩,
   Ghost.new .Clyde ⟨16, 14⟩]

-- ─── maze.rs ────────────────────────────────────────────────────────────────

/-- `CellType` (maze.rs). -/
inductive CellType where
  | Empty
  | Wall
  | Dot
  | PowerPellet
  | GhostHouse
deriving DecidableEq, Repr

def MAZE_WIDTH : ℕ := 28
def MAZE_HEIGHT : ℕ := 31

/-- `Maze` (maze.rs). -/
structure Maze where
  cells : List (List CellType)
  width : ℕ
  height : ℕ
deriving DecidableEq, Repr

/-- The `match ch` of `Maze::new`. -/
def charToCell (c : Char) : CellType :=
  if c = 'W' then .Wall
  else if c = '.' then .Dot
  else if c = 'o' then .PowerPellet
  else if c = 'G' then .GhostHouse
  else .Empty

/-- `.chars().take(MAZE_WIDTH)` followed by `resize(MAZE_WIDTH, Empty)`. -/
def padRow (l : List CellType) : List CellType :=
  let t := l.take MAZE_WIDTH
  t ++ List.replicate (MAZE_WIDTH - t.length) CellType.Empty

/-- The layout string literals of `Maze::new`, verbatim. -/
def mazeLayout : List String :=
  ["WWWWWWWWWWWWWWWWWWWWWWWWWWWW",
   "W............WW............W",
   "W.WWWW.WWWWW.WW.WWWWW.WWWWW",
   "WoWWWW.WWWWW.WW.WWWWW.WWWWoW",
   "W.WWWW.WWWWW.WW.WWWWW.WWWWW",
   "W..........................W",
   "W.WWWW.WW.WWWWWWWW.WW.WWWWW",
   "W.WWWW.WW.WWWWWWWW.WW.WWWWW",
   "W......WW....WW....WW......W",
   "WWWWWW.WWWWW.WW.WWWWW.WWWWWW",
   "EEEEWW.WWWWW.WW.WWWWW.WWEEEEE",
   "EEEEWW.WW..........WW.WWEEEEE",
   "EEEEWW.WW.WWWGGWWW.WW.WWEEEEE",
   "WWWWWW.WW.WEGGGGEW.WW.WWWWWW",
   "EEEEEE....WEGGGGEW....EEEEEE",
   "WWWWWW.WW.WEGGGGEW.WW.WWWWWW",
   "EEEEWW.WW.WWWWWWWW.WW.WWEEEEE",
   "EEEEWW.WW..........WW.WWEEEEE",
   "EEEEWW.WW.WWWWWWWW.WW.WWEEEEE",
   "WWWWWW.WW.WWWWWWWW.WW.WWWWWW",
   "W............WW............W",
   "W.WWWW.WWWWW.WW.WWWWW.WWWWW",
   "W.WWWW.WWWWW.WW.WWWWW.WWWWW",
   "Wo..WW................WW..oW",
   "WWW.WW.WW.WWWWWWWW.WW.WW.WWW",
   "WWW.WW.WW.WWWWWWWW.WW.WW.WWW",
   "W......WW....WW....WW......W",
   "W.WWWWWWWWWW.WW.WWWWWWWWWW.W",
   "W.WWWWWWWWWW.WW.WWWWWWWWWW.W",
   "W..........................W",
   "WWWWWWWWWWWWWWWWWWWWWWWWWWWW"]

/-- `Maze::new`. -/
def Maze.new : Maze :=
  { cells := mazeLayout.map fun row => padRow (row.toList.map charToCell)
    width := MAZE_WIDTH
    height := MAZE_HEIGHT }

/-- `Maze::dots_remaining`. -/
def Maze.dots_remaining (m : Maze) : ℕ :=
  m.cells.foldl
    (fun acc row =>
      acc + row.countP (fun c => decide (c = CellType.Dot ∨ c = CellType.PowerPellet)))
    0

/-- `Maze::get_cell`. -/
def Maze.get_cell (m : Maze) (row col : ℕ) : Option CellType :=
  (m.cells.get? row).bind fun r => r.get? col

/-- `self.maze.cells[row][col] = v` (always called with in-range indices,
immediately after `get_cell` returned `some`). -/
def Maze.setCell (m : Maze) (row col : ℕ) (v : CellType) : Maze :=
  { m with cells := m.cells.set row (((m.cells.get? row).getD []).set col v) }

/-- The `!matches!(cell, Some(Wall) | Some(GhostHouse) | None)` of
`is_walkable`. -/
def walkCell : Option CellType → Bool
  | some CellType.Wall => false
  | some CellType.GhostHouse => false
  | none => false
  | _ => true

/-- `Maze::is_walkable`.  `iy as usize` saturates negatives to row `0`. -/
def Maze.is_walkable (m : Maze) (x y : ℚ) : Bool :=
  let ix := fround x
  let iy := fround y
  if ix < 0 ∨ (m.width : ℤ) ≤ ix then
    true
  else
    walkCell (m.get_cell iy.toNat ix.toNat)

-- ─── state.rs: data model ───────────────────────────────────────────────────

/-- `GameMode` (state.rs). -/
inductive GameMode where
  | Classic
  | PvP
deriving DecidableEq, Repr

/-- `GamePhase` (state.rs). -/
inductive GamePhase where
  | Ready
  | Playing
  | Paused
  | GameOver
deriving DecidableEq, Repr

/-- `GameStateInner` (state.rs). -/
structure GameStateInner where
  mode : GameMode
  phase : GamePhase
  maze : Maze
  pacman : PacMan
  ghosts : List Ghost
  dots_remaining : ℕ
  level : ℕ
  global_timer : ℚ
  frightened_timer : ℚ
deriving DecidableEq, Repr

/-- `GameStateInner::new`. -/
def GameStateInner.new (mode : GameMode) : GameStateInner :=
  let maze := Maze.new
  { mode := mode
    phase := .Ready
    maze := maze
    pacman := PacMan.new
    ghosts := Ghost.create_all
    dots_remaining := maze.dots_remaining
    level := 1
    global_timer := 0
    frightened_timer := 0 }

-- ─── state.rs: update_timers ────────────────────────────────────────────────

/-- `GameStateInner::update_timers`. -/
def update_timers (s : GameStateInner) (dt : ℚ) : GameStateInner :=
  let oldFrightened := 0 < s.frightened_timer
  let ft :=
    if 0 < s.frightened_timer then
      if s.frightened_timer - dt ≤ 0 then 0 else s.frightened_timer - dt
    else s.frightened_timer
  let gt := if 0 < s.frightened_timer then s.global_timer else s.global_timer + dt
  let cycleTime := fmod gt 27
  let globalMode := if cycleTime < 7 then GhostMode.Scatter else GhostMode.Chase
  let gs1toggle :=
    if oldFrightened ∧ ft ≤ 0 then
      (s.ghosts.map fun g =>
        if g.mode = GhostMode.Frightened then { g with mode := globalMode } else g,
       false)
    else if ft ≤ 0 then
      (s.ghosts.map fun g =>
        if (g.mode = GhostMode.Chase ∨ g.mode = GhostMode.Scatter) ∧ g.mode ≠ globalMode
        then { g with mode := globalMode } else g,
       s.ghosts.any fun g =>
        decide ((g.mode = GhostMode.Chase ∨ g.mode = GhostMode.Scatter) ∧ g.mode ≠ globalMode))
    else (s.ghosts, false)
  let gs2 :=
    if gs1toggle.2 then
      gs1toggle.1.map fun g =>
        if g.mode = GhostMode.Chase ∨ g.mode = GhostMode.Scatter then
          { g with direction := g.direction.opposite }
        else g
    else gs1toggle.1
  { s with frightened_timer := ft, global_timer := gt, ghosts := gs2 }

-- ─── state.rs: get_ghost_target ─────────────────────────────────────────────

/-- `GameStateInner::get_ghost_target`. -/
def get_ghost_target (ghost : Ghost) (pacPos : Position) (pacDir : Direction)
    (blinkyPos : Position) (globalTimer : ℚ) : ℤ × ℤ :=
  match ghost.mode with
  | .Scatter =>
    match ghost.ghost_type with
    | .Blinky => (25, -3)
    | .Pinky => (2, -3)
    | .Inky => (27, 31)
    | .Clyde => (0, 31)
  | .Chase =>
    match ghost.ghost_type with
    | .Blinky =>
      let cr := pacPos.to_grid
      ((cr.1 : ℤ), (cr.2 : ℤ))
    | .Pinky =>
      let cr := pacPos.to_grid
      let v := pacDir.to_vector_z
      ((cr.1 : ℤ) + v.1 * 4, (cr.2 : ℤ) + v.2 * 4)
    | .Inky =>
      let pcr := pacPos.to_grid
      let v := pacDir.to_vector_z
      let pivotC := (pcr.1 : ℤ) + v.1 * 2
      let pivotR := (pcr.2 : ℤ) + v.2 * 2
      let bcr := blinkyPos.to_grid
      let vecC := pivotC - (bcr.1 : ℤ)
      let vecR := pivotR - (bcr.2 : ℤ)
      (pivotC + vecC, pivotR + vecR)
    | .Clyde =>
      let cr := pacPos.to_grid
      let gcr := ghost.position.to_grid
      let distSq := ((cr.1 : ℤ) - (gcr.1 : ℤ)) ^ 2 + ((cr.2 : ℤ) - (gcr.2 : ℤ)) ^ 2
      if 64 < distSq then ((cr.1 : ℤ), (cr.2 : ℤ)) else (0, 31)
  | .Frightened =>
    let seed : ℚ := globalTimer * 10 + ghost.position.x * 3
    (Int.tmod (rtrunc seed) 28, Int.tmod (rtrunc seed * 7) 31)
  | .Eaten => (14, 11)

-- ─── state.rs: update_ghosts ────────────────────────────────────────────────

/-- Accumulator of the intersection-choice loop of `update_ghosts`
(`best_dir` / `min_dist_sq` / `options`; `minSq = none` plays `f64::MAX`). -/
structure DirAcc where
  best : Direction
  minSq : Option ℚ
  options : ℕ
deriving DecidableEq, Repr

/-- One iteration of the candidate loop of the tile-center decision: skip the
reverse direction, count walkable candidates (`Eaten` counts everything),
track the strict minimum. -/
def chooseDirStep (m : Maze) (gmode : GhostMode) (dir : Direction) (cx cy : ℚ)
    (target : ℤ × ℤ) (acc : DirAcc) (d : Direction) : DirAcc :=
  if d = dir.opposite then acc
  else
    let v := d.to_vector
    let tx := cx + v.1
    let ty := cy + v.2
    if m.is_walkable tx ty = true ∨ gmode = GhostMode.Eaten then
      let dsq := (tx - (target.1 : ℚ)) ^ 2 + (ty - (target.2 : ℚ)) ^ 2
      match acc.minSq with
      | none => { best := d, minSq := some dsq, options := acc.options + 1 }
      | some mn =>
        if dsq < mn then { best := d, minSq := some dsq, options := acc.options + 1 }
        else { acc with options := acc.options + 1 }
    else acc

/-- The tile-center decision of `update_ghosts` (state.rs lines 348-386):
enumerate `Up, Left, Down, Right`, skip the reverse of `dir`, keep candidates
that are walkable — or, for an `Eaten` ghost, keep every candidate — and take
the first one minimising squared Euclidean distance to `target`; if there was
no candidate at all, reverse. -/
def chooseDir (m : Maze) (gmode : GhostMode) (dir : Direction) (cx cy : ℚ)
    (target : ℤ × ℤ) : Direction :=
  let r := [Direction.Up, Direction.Left, Direction.Down, Direction.Right].foldl
    (chooseDirStep m gmode dir cx cy target) { best := dir, minSq := none, options := 0 }
  if r.options = 0 then dir.opposite else r.best

/-- The body of the per-ghost loop of `GameStateInner::update_ghosts`
(state.rs lines 264-398), as a function of the loop-invariant context
captured before the loop. -/
def ghostStep (m : Maze) (gameMode : GameMode) (ft gt dt : ℚ)
    (pacPos : Position) (pacDir : Direction) (blinkyPos : Position)
    (g0 : Ghost) : Ghost :=
  let baseSpeed : ℚ := 9
  let speed :=
    match g0.mode with
    | .Frightened => baseSpeed * (1/2)
    | .Eaten => baseSpeed * 2
    | _ => baseSpeed
  let dist := speed * dt
  -- "If Eaten and reaches house, revive"
  let g1 :=
    if g0.mode = GhostMode.Eaten ∧ g0.position.to_grid = (14, 11) then
      { g0 with mode :=
          if ft ≤ 0 then
            if fmod gt 27 < 7 then GhostMode.Scatter else GhostMode.Chase
          else GhostMode.Chase }
    else g0
  let isPlayer := gameMode = GameMode.PvP ∧ g1.ghost_type = GhostType.Blinky ∧
      g1.mode ≠ GhostMode.Eaten ∧ g1.mode ≠ GhostMode.Frightened
  -- player-controlled turn attempt
  let g2 :=
    if isPlayer ∧ g1.next_direction ≠ g1.direction then
      if g1.next_direction = g1.direction.opposite then
        { g1 with direction := g1.next_direction }
      else
        let cx : ℚ := (fround g1.position.x : ℤ)
        let cy : ℚ := (fround g1.position.y : ℤ)
        if |g1.position.x - cx| ≤ dist ∧ |g1.position.y - cy| ≤ dist then
          let v := g1.next_direction.to_vector
          if m.is_walkable (cx + v.1) (cy + v.2) = true then
            { g1 with position := ⟨cx, cy⟩, direction := g1.next_direction }
          else g1
        else g1
    else g1
  let v := g2.direction.to_vector
  let nx := g2.position.x + v.1 * dist
  let ny := g2.position.y + v.2 * dist
  let cx : ℚ := (fround g2.position.x : ℤ)
  let cy : ℚ := (fround g2.position.y : ℤ)
  let crossedCenter : Bool :=
    match g2.direction with
    | .Right => decide (g2.position.x < cx ∧ cx ≤ nx)
    | .Left => decide (cx < g2.position.x ∧ nx ≤ cx)
    | .Down => decide (g2.position.y < cy ∧ cy ≤ ny)
    | .Up => decide (cy < g2.position.y ∧ ny ≤ cy)
  let g3 :=
    if isPlayer then
      if (crossedCenter = true ∨ (0 < v.1 ∧ cx < nx) ∨ (v.1 < 0 ∧ nx < cx) ∨
            (0 < v.2 ∧ cy < ny) ∨ (v.2 < 0 ∧ ny < cy)) ∧
          m.is_walkable (cx + v.1) (cy + v.2) = false then
        { g2 with position := ⟨cx, cy⟩ }
      else
        { g2 with position := ⟨nx, ny⟩ }
    else if crossedCenter then
      let target := get_ghost_target g2 pacPos pacDir blinkyPos gt
      { g2 with position := ⟨cx, cy⟩,
                direction := chooseDir m g2.mode g2.direction cx cy target }
    else
      { g2 with position := ⟨nx, ny⟩ }
  -- tunnel wrap
  let w : ℚ := (m.width : ℚ)
  let px :=
    if g3.position.x < -(1/2 : ℚ) then g3.position.x + w
    else if w - 1/2 ≤ g3.position.x then g3.position.x - w
    else g3.position.x
  { g3 with position := ⟨px, g3.position.y⟩ }

/-- The pre-loop capture of Blinky's position in `update_ghosts`
(state.rs lines 257-262): start from `ghosts[0]` and take the last
Blinky-typed ghost.  (`ghosts[0]` panics on an empty vector; every state of
this development carries the four ghosts.) -/
def blinkyScan (gs : List Ghost) : Position :=
  gs.foldl (fun acc g => if g.ghost_type = GhostType.Blinky then g.position else acc)
    gs.headI.position

/-- `GameStateInner::update_ghosts`.  The loop body touches only the ghost
itself plus context captured before the loop, so the in-place loop is a map. -/
def update_ghosts (s : GameStateInner) (dt : ℚ) : GameStateInner :=
  let pacPos := s.pacman.position
  let pacDir := s.pacman.direction
  let bp := blinkyScan s.ghosts
  { s with ghosts :=
      s.ghosts.map (ghostStep s.maze s.mode s.frightened_timer s.global_timer dt pacPos pacDir bp) }

/-- Stated from the claim (spec §5): the same ghost update, but ghosts are
processed sequentially and Inky's (and everyone's) targeting uses Blinky's
position *after* Blinky has moved in the same tick.  Used to compare the
claimed behaviour with `update_ghosts`. -/
def update_ghosts_postmove (s : GameStateInner) (dt : ℚ) : GameStateInner :=
  let pacPos := s.pacman.position
  let pacDir := s.pacman.direction
  let bp0 := blinkyScan s.ghosts
  let step : List Ghost × Position → Ghost → List Ghost × Position := fun acc g =>
    let g2 := ghostStep s.maze s.mode s.frightened_timer s.global_timer dt pacPos pacDir acc.2 g
    (acc.1 ++ [g2], if g.ghost_type = GhostType.Blinky then g2.position else acc.2)
  { s with ghosts := (s.ghosts.foldl step ([], bp0)).1 }

-- ─── state.rs: update_pacman ────────────────────────────────────────────────

/-- `GameStateInner::update_pacman` (acts only on the `pacman` field; the
maze is read-only context). -/
def pacStep (m : Maze) (p0 : PacMan) (dist : ℚ) : PacMan :=
  -- 1. turn attempt
  let p1 :=
    if p0.next_direction ≠ p0.direction then
      if p0.next_direction = p0.direction.opposite then
        { p0 with direction := p0.next_direction }
      else
        let cx : ℚ := (fround p0.position.x : ℤ)
        let cy : ℚ := (fround p0.position.y : ℤ)
        if |p0.position.x - cx| ≤ dist ∧ |p0.position.y - cy| ≤ dist then
          let v := p0.next_direction.to_vector
          if m.is_walkable (cx + v.1) (cy + v.2) = true then
            { p0 with position := ⟨cx, cy⟩, direction := p0.next_direction }
          else p0
        else p0
    else p0
  -- 2. forward move
  let v := p1.direction.to_vector
  let nx := p1.position.x + v.1 * dist
  let ny := p1.position.y + v.2 * dist
  -- 3. wall clamp
  let cx : ℚ := (fround p1.position.x : ℤ)
  let cy : ℚ := (fround p1.position.y : ℤ)
  let crossedCenter : Bool :=
    match p1.direction with
    | .Right => decide (p1.position.x < cx ∧ cx ≤ nx)
    | .Left => decide (cx < p1.position.x ∧ nx ≤ cx)
    | .Down => decide (p1.position.y < cy ∧ cy ≤ ny)
    | .Up => decide (cy < p1.position.y ∧ ny ≤ cy)
  let clamped :=
    if (crossedCenter = true ∨ (0 < v.1 ∧ cx < nx) ∨ (v.1 < 0 ∧ nx < cx) ∨
          (0 < v.2 ∧ cy < ny) ∨ (v.2 < 0 ∧ ny < cy)) ∧
        m.is_walkable (cx + v.1) (cy + v.2) = false then
      (cx, cy)
    else (nx, ny)
  -- 4. tunnel wrap
  let w : ℚ := (m.width : ℚ)
  let px :=
    if clamped.1 < -(1/2 : ℚ) then clamped.1 + w
    else if w - 1/2 ≤ clamped.1 then clamped.1 - w
    else clamped.1
  { p1 with position := ⟨px, clamped.2⟩ }

-- ─── state.rs: check_collisions ─────────────────────────────────────────────

/-- Accumulator of the ghost-collision loop of `check_collisions`: the
`self` fields the loop mutates, plus the ghosts already processed. -/
structure CAcc where
  lives : ℕ
  score : ℕ
  phase : GamePhase
  gs : List Ghost
deriving DecidableEq, Repr

/-- `let dx = ...; let dy = ...; dx * dx + dy * dy` — the squared Euclidean
distance used by the collision check. -/
def distSq (p q : Position) : ℚ :=
  (p.x - q.x) * (p.x - q.x) + (p.y - q.y) * (p.y - q.y)

/-- One iteration of the ghost-collision loop (state.rs lines 506-531). -/
def ghostCollide (pacPos : Position) (acc : CAcc) (g : Ghost) : CAcc :=
  if distSq pacPos g.position < 1/4 then
    match g.mode with
    | GhostMode.Frightened =>
      { acc with score := acc.score + 200, gs := acc.gs ++ [{ g with mode := GhostMode.Eaten }] }
    | GhostMode.Chase =>
      let lv := if 0 < acc.lives then acc.lives - 1 else acc.lives
      { acc with lives := lv,
                 phase := if lv = 0 then GamePhase.GameOver else GamePhase.Paused,
                 gs := acc.gs ++ [g] }
    | GhostMode.Scatter =>
      let lv := if 0 < acc.lives then acc.lives - 1 else acc.lives
      { acc with lives := lv,
                 phase := if lv = 0 then GamePhase.GameOver else GamePhase.Paused,
                 gs := acc.gs ++ [g] }
    | GhostMode.Eaten => { acc with gs := acc.gs ++ [g] }
  else { acc with gs := acc.gs ++ [g] }

/-- What a pass of the ghost-collision loop does to a single ghost: a
colliding `Frightened` ghost becomes `Eaten`, every other ghost survives
unchanged. -/
def collideUpd (p : Position) (g : Ghost) : Ghost :=
  if distSq p g.position < 1/4 ∧ g.mode = GhostMode.Frightened then
    { g with mode := GhostMode.Eaten }
  else g

/-- The per-ghost frightening applied on pellet consumption
(state.rs lines 493-499): every non-`Eaten` ghost turns `Frightened` and
reverses. -/
def pelletUpd (g : Ghost) : Ghost :=
  if g.mode ≠ GhostMode.Eaten then
    { g with mode := GhostMode.Frightened, direction := g.direction.opposite }
  else g

/-- The dot / pellet pickup stage of `check_collisions`
(state.rs lines 479-503). -/
def pickupStage (s : GameStateInner) : GameStateInner :=
  let grid := s.pacman.position.to_grid
  match s.maze.get_cell grid.2 grid.1 with
  | some CellType.Dot =>
    { s with pacman := { s.pacman with score := s.pacman.score + 10 },
             dots_remaining := s.dots_remaining - 1,
             maze := s.maze.setCell grid.2 grid.1 CellType.Empty }
  | some CellType.PowerPellet =>
    { s with pacman := { s.pacman with score := s.pacman.score + 50 },
             dots_remaining := s.dots_remaining - 1,
             maze := s.maze.setCell grid.2 grid.1 CellType.Empty,
             ghosts := s.ghosts.map pelletUpd }
  | _ => s

/-- `GameStateInner::check_collisions`. -/
def check_collisions (s : GameStateInner) : GameStateInner :=
  -- dot / pellet pickup
  let s1 := pickupStage s
  -- ghost collisions
  let a := s1.ghosts.foldl (ghostCollide s1.pacman.position)
    { lives := s1.pacman.lives, score := s1.pacman.score, phase := s1.phase, gs := [] }
  let s2 := { s1 with pacman := { s1.pacman with lives := a.lives, score := a.score },
                      phase := a.phase, ghosts := a.gs }
  -- level clear
  if s2.dots_remaining = 0 then { s2 with phase := GamePhase.Paused } else s2

-- ─── state.rs: tick and the wasm-facing interface ───────────────────────────

/-- `GameStateInner::tick` (dt in seconds; `PAC_SPEED = 11.0`). -/
def tick (s : GameStateInner) (dt : ℚ) : GameStateInner :=
  if s.phase ≠ GamePhase.Playing then s
  else
    let s1 := update_timers s dt
    let s2 := { s1 with pacman := pacStep s1.maze s1.pacman (11 * dt) }
    let s3 := update_ghosts s2 dt
    check_collisions s3

/-- ASCII lowercasing of one character. -/
def asciiLowerChar (c : Char) : Char :=
  if 'A' ≤ c ∧ c ≤ 'Z' then Char.ofNat (c.toNat + 32) else c

/-- Rust's `str::to_lowercase`, modelled as per-character ASCII lowercasing.
The model is exact on ASCII input; every comparison below is against the
ASCII keywords `classic` / `pvp` / `up` / `down` / `left` / `right`, and no
non-ASCII string Unicode-lowercases to any of them (the few Unicode
uppercase letters with ASCII lowercase forms, such as the Kelvin sign, do
not occur in those keywords), so the success sets coincide. -/
def asciiLower (s : String) : String :=
  ⟨s.data.map asciiLowerChar⟩

/-- `GameState::new` (the wasm constructor): parse the mode string, or panic
with a message naming the bad value.  The panic is modelled as `Except.error`
carrying the exact panic message. -/
def gameStateNew (mode : String) : Except String GameStateInner :=
  if asciiLower mode = "classic" then Except.ok (GameStateInner.new GameMode.Classic)
  else if asciiLower mode = "pvp" then Except.ok (GameStateInner.new GameMode.PvP)
  else Except.error ("Invalid game mode: \x27" ++ mode ++ "\x27. Use \x27classic\x27 or \x27pvp\x27.")

/-- The direction-string parsing shared by `set_direction` /
`set_player2_direction`. -/
def parseDirection (d : String) : Option Direction :=
  if asciiLower d = "up" then some .Up
  else if asciiLower d = "down" then some .Down
  else if asciiLower d = "left" then some .Left
  else if asciiLower d = "right" then some .Right
  else none

/-- `GameState::set_direction`. -/
def set_direction (s : GameStateInner) (d : String) : GameStateInner :=
  match parseDirection d with
  | none => s
  | some dir =>
    let s1 := { s with pacman := { s.pacman with next_direction := dir } }
    if s1.phase = GamePhase.Ready then { s1 with phase := GamePhase.Playing } else s1

-- ─── Spec-side definitions (stated from the specification's words) ──────────

/-- Stated from the spec (§4.1): the cell addressed by *integer* grid
coordinates; a coordinate outside the grid (negative included) has no cell. -/
def cellAtZ (r c : ℤ) : Option CellType :=
  if 0 ≤ r ∧ 0 ≤ c then Maze.new.get_cell r.toNat c.toNat else none

/-- Stated from the claim C8 / spec §4.1: walkable iff `round(x)` is outside
the column range, or the cell at `(round(y), round(x))` exists and is neither
`Wall` nor `GhostHouse`; an absent cell is non-walkable. -/
def walkableSpecB (x y : ℚ) : Bool :=
  if fround x < 0 ∨ 28 ≤ fround x then true
  else walkCell (cellAtZ (fround y) (fround x))

/-- Stated from the claim C6: a dead end for a ghost travelling in `dir`
through the tile centred at `(cx, cy)`: every neighbour direction other than
the reverse is non-walkable. -/
def deadEndB (m : Maze) (dir : Direction) (cx cy : ℚ) : Bool :=
  [Direction.Up, Direction.Left, Direction.Down, Direction.Right].all fun d =>
    decide (d = dir.opposite ∨ m.is_walkable (cx + d.to_vector.1) (cy + d.to_vector.2) = false)

/-- The dot count after the pickup stage of a tick (used to phrase
"`dots_remaining` stays positive" in C7). -/
def dotsAfterPickup (s : GameStateInner) : ℕ :=
  match s.maze.get_cell s.pacman.position.to_grid.2 s.pacman.position.to_grid.1 with
  | some CellType.Dot => s.dots_remaining - 1
  | some CellType.PowerPellet => s.dots_remaining - 1
  | _ => s.dots_remaining

-- ─── Concrete states used by the individual claims ──────────────────────────

/-- A `Playing` state whose Pac-Man sits just below the power pellet of cell
`(col 1, row 3)` and rounds onto it, moving up; everything else as freshly
created. -/
def c1State : GameStateInner :=
  { mode := .Classic, phase := .Playing, maze := Maze.new,
    pacman := { position := ⟨1, 13/4⟩, direction := .Up, next_direction := .Up,
                lives := 3, score := 0 },
    ghosts := Ghost.create_all, dots_remaining := Maze.new.dots_remaining,
    level := 1, global_timer := 0, frightened_timer := 0 }

/-- The fresh Classic game after its first input (`set_direction "left"`):
phase `Playing`, everything else at spawn. -/
def c2State : GameStateInner :=
  set_direction (GameStateInner.new GameMode.Classic) "left"

/-- A `Playing` state in which, during one `dt = 1/8` tick, Blinky slides from
grid column 2 to grid column 1 (without crossing a tile centre) while Inky
crosses the centre of tile `(9, 5)` and must pick between `Left` and `Down`. -/
def c3State : GameStateInner :=
  { mode := .Classic, phase := .Playing, maze := Maze.new,
    pacman := { position := ⟨1, 8⟩, direction := .Down, next_direction := .Down,
                lives := 3, score := 0 },
    ghosts :=
      [{ ghost_type := .Blinky, position := ⟨7/4, 6⟩, direction := .Left,
         mode := .Chase, next_direction := .Up },
       { ghost_type := .Pinky, position := ⟨81/4, 1⟩, direction := .Right,
         mode := .Chase, next_direction := .Up },
       { ghost_type := .Inky, position := ⟨37/4, 5⟩, direction := .Left,
         mode := .Chase, next_direction := .Up },
       { ghost_type := .Clyde, position := ⟨81/4, 29⟩, direction := .Right,
         mode := .Chase, next_direction := .Up }],
    dots_remaining := 200, level := 1, global_timer := 10, frightened_timer := 0 }

/-- Like `c1State`, but Blinky descends the same corridor and is within half a
tile of Pac-Man when the pellet is consumed. -/
def c4State : GameStateInner :=
  { mode := .Classic, phase := .Playing, maze := Maze.new,
    pacman := { position := ⟨1, 13/4⟩, direction := .Up, next_direction := .Up,
                lives := 3, score := 0 },
    ghosts :=
      [{ ghost_type := .Blinky, position := ⟨1, 11/4⟩, direction := .Down,
         mode := .Scatter, next_direction := .Up },
       Ghost.new .Pinky ⟨12, 14⟩, Ghost.new .Inky ⟨14, 14⟩, Ghost.new .Clyde ⟨16, 14⟩],
    dots_remaining := Maze.new.dots_remaining, level := 1,
    global_timer := 0, frightened_timer := 0 }

/-- A `Frightened` ghost parked at the left tunnel mouth `x = -0.5` (the
extreme of the legal range): its pseudo-random seed is negative. -/
def c5Ghost : Ghost :=
  { ghost_type := .Blinky, position := ⟨-(1/2), 14⟩, direction := .Left,
    mode := .Frightened, next_direction := .Up }

/-- A `Frightened` ghost with a positive seed (for the amended C5). -/
def c5GhostPos : Ghost :=
  { ghost_type := .Blinky, position := ⟨2, 14⟩, direction := .Left,
    mode := .Frightened, next_direction := .Up }

/-- An `Eaten` ghost about to cross the centre of the ghost-house cell
`(13, 13)`, all three non-reverse neighbours of which are `GhostHouse`. -/
def c6Ghost : Ghost :=
  { ghost_type := .Blinky, position := ⟨13, 105/8⟩, direction := .Up,
    mode := .Eaten, next_direction := .Up }

/-- The Blinky of `c7State`: `Scatter`, one eighth of a tile above Pac-Man. -/
def blinkyNear : Ghost :=
  { ghost_type := .Blinky, position := ⟨1, 23/8⟩, direction := .Down,
    mode := .Scatter, next_direction := .Up }

/-- A post-movement `Playing` state: Pac-Man exactly on the power pellet cell
`(1, 3)` with the lethal-looking `blinkyNear` an eighth of a tile away. -/
def c7State : GameStateInner :=
  { mode := .Classic, phase := .Playing, maze := Maze.new,
    pacman := { position := ⟨1, 3⟩, direction := .Up, next_direction := .Up,
                lives := 3, score := 0 },
    ghosts := [blinkyNear, Ghost.new .Pinky ⟨12, 14⟩, Ghost.new .Inky ⟨14, 14⟩,
               Ghost.new .Clyde ⟨16, 14⟩],
    dots_remaining := 100, level := 1, global_timer := 0, frightened_timer := 0 }

/-- The Blinky of `c7WitnessState`: `Chase`, three eighths of a tile below
Pac-Man. -/
def blinkyChasing : Ghost :=
  { ghost_type := .Blinky, position := ⟨1, 11/8⟩, direction := .Up,
    mode := .Chase, next_direction := .Up }

/-- A post-movement `Playing` state for the amended C7: Pac-Man on the plain
dot cell `(1, 1)`, one ghost (in `Chase`) within half a tile, plenty of dots
left. -/
def c7WitnessState : GameStateInner :=
  { mode := .Classic, phase := .Playing, maze := Maze.new,
    pacman := { position := ⟨1, 1⟩, direction := .Up, next_direction := .Up,
                lives := 3, score := 0 },
    ghosts := [blinkyChasing, Ghost.new .Pinky ⟨12, 14⟩, Ghost.new .Inky ⟨14, 14⟩,
               Ghost.new .Clyde ⟨16, 14⟩],
    dots_remaining := 5, level := 1, global_timer := 0, frightened_timer := 0 }

/-- A `Playing` state holding its last dot under Pac-Man while a `Scatter`
ghost sits on top of him with one life left: the tick both kills Pac-Man
(`GameOver` written) and clears the level (`Paused` overwrites it). -/
def c10State : GameStateInner :=
  { mode := .Classic, phase := .Playing, maze := Maze.new,
    pacman := { position := ⟨1, 5/4⟩, direction := .Up, next_direction := .Up,
                lives := 1, score := 0 },
    ghosts :=
      [{ ghost_type := .Blinky, position := ⟨1, 5/4⟩, direction := .Down,
         mode := .Scatter, next_direction := .Up },
       Ghost.new .Pinky ⟨12, 14⟩, Ghost.new .Inky ⟨14, 14⟩, Ghost.new .Clyde ⟨16, 14⟩],
    dots_remaining := 1, level := 1, global_timer := 0, frightened_timer := 0 }

-- ─── Helper lemmas ──────────────────────────────────────────────────────────

/-- `Rat.floor` (used in the executable embedding) is the mathematical floor. -/
theorem ratFloor_eq (q : ℚ) : Rat.floor q = ⌊q⌋ :=
  (Rat.floor_def' q).trans Rat.floor_def.symm

/-- No direction is its own opposite. -/
theorem opposite_ne (d : Direction) : d ≠ d.opposite := by
  cases d <;> decide

/-- The pickup stage never moves Pac-Man. -/
theorem pickupStage_pacman_position (s : GameStateInner) :
    (pickupStage s).pacman.position = s.pacman.position := by
  cases hc : s.maze.get_cell s.pacman.position.to_grid.2 s.pacman.position.to_grid.1 with
  | none => simp [pickupStage, hc]
  | some c => cases c <;> simp [pickupStage, hc]

/-- The pickup stage never touches lives. -/
theorem pickupStage_pacman_lives (s : GameStateInner) :
    (pickupStage s).pacman.lives = s.pacman.lives := by
  cases hc : s.maze.get_cell s.pacman.position.to_grid.2 s.pacman.position.to_grid.1 with
  | none => simp [pickupStage, hc]
  | some c => cases c <;> simp [pickupStage, hc]

/-- The pickup stage never touches the phase. -/
theorem pickupStage_phase (s : GameStateInner) :
    (pickupStage s).phase = s.phase := by
  cases hc : s.maze.get_cell s.pacman.position.to_grid.2 s.pacman.position.to_grid.1 with
  | none => simp [pickupStage, hc]
  | some c => cases c <;> simp [pickupStage, hc]

/-- The dot count after the pickup stage. -/
theorem pickupStage_dots (s : GameStateInner) :
    (pickupStage s).dots_remaining = dotsAfterPickup s := by
  cases hc : s.maze.get_cell s.pacman.position.to_grid.2 s.pacman.position.to_grid.1 with
  | none => simp [pickupStage, dotsAfterPickup, hc]
  | some c => cases c <;> simp [pickupStage, dotsAfterPickup, hc]

/-- Without a power pellet under Pac-Man, the pickup stage leaves the ghosts
alone. -/
theorem pickupStage_ghosts_of_no_pellet (s : GameStateInner)
    (h : s.maze.get_cell s.pacman.position.to_grid.2 s.pacman.position.to_grid.1 ≠
      some CellType.PowerPellet) :
    (pickupStage s).ghosts = s.ghosts := by
  cases hc : s.maze.get_cell s.pacman.position.to_grid.2 s.pacman.position.to_grid.1 with
  | none => simp [pickupStage, hc]
  | some c => cases c <;> simp [pickupStage, hc] <;> exact absurd hc h

/-- On a power pellet, the pickup stage frightens the ghosts. -/
theorem pickupStage_ghosts_of_pellet (s : GameStateInner)
    (h : s.maze.get_cell s.pacman.position.to_grid.2 s.pacman.position.to_grid.1 =
      some CellType.PowerPellet) :
    (pickupStage s).ghosts = s.ghosts.map pelletUpd := by
  simp [pickupStage, h]

/-- One collision iteration appends exactly the collided ghost. -/
theorem ghostCollide_gs (p : Position) (acc : CAcc) (g : Ghost) :
    (ghostCollide p acc g).gs = acc.gs ++ [collideUpd p g] := by
  cases hm : g.mode <;>
    simp only [ghostCollide, collideUpd, hm] <;>
    split_ifs <;>
    (try simp_all) <;>
    (try linarith)

/-- The collision loop maps `collideUpd` over the ghosts. -/
theorem foldl_ghostCollide_gs (p : Position) :
    ∀ (l : List Ghost) (acc : CAcc),
      (l.foldl (ghostCollide p) acc).gs = acc.gs ++ l.map (collideUpd p) := by
  intro l
  induction l with
  | nil => simp
  | cons g l ih =>
    intro acc
    rw [List.foldl_cons, ih, ghostCollide_gs]
    simp

/-- The ghost list after `check_collisions`: pellet frightening (if any)
followed by the per-ghost collision outcome. -/
theorem check_collisions_ghosts (s : GameStateInner) :
    (check_collisions s).ghosts =
      (pickupStage s).ghosts.map (collideUpd s.pacman.position) := by
  have hp := pickupStage_pacman_position s
  simp only [check_collisions]
  split
  · rw [foldl_ghostCollide_gs, hp]; simp
  · rw [foldl_ghostCollide_gs, hp]; simp

/-- After `check_collisions`, a zero dot count forces phase `Paused` —
the level-clear write is the last one and overrules everything before it. -/
theorem check_collisions_paused_of_no_dots (s : GameStateInner)
    (h : (check_collisions s).dots_remaining = 0) :
    (check_collisions s).phase = GamePhase.Paused := by
  simp only [check_collisions] at h ⊢
  split at h
  next hcond => rw [if_pos hcond]
  next hcond => exact absurd h hcond

-- ─── C1 ─────────────────────────────────────────────────────────────────────

/-- C1: the claim says a tick that consumes a `PowerPellet` leaves
`frightened_timer = 6.0 > 0`.  The code never assigns `frightened_timer`
on pellet consumption: in `c1State` (Playing, Pac-Man rounding onto the
power-pellet cell `(1, 3)`) the tick consumes the pellet (score `+50`,
every ghost `Frightened`) yet `frightened_timer` stays `0`. -/
theorem c1_pellet_never_sets_frightened_timer :
    c1State.phase = GamePhase.Playing ∧
    Maze.new.get_cell 3 1 = some CellType.PowerPellet ∧
    (tick c1State (1/64)).pacman.position.to_grid = (1, 3) ∧
    (tick c1State (1/64)).pacman.score = 50 ∧
    ((tick c1State (1/64)).ghosts.all fun g => decide (g.mode = GhostMode.Frightened)) = true ∧
    (tick c1State (1/64)).frightened_timer = 0 := by
  decide

-- ─── C2 ─────────────────────────────────────────────────────────────────────

/-- C2: the walkability invariant fails.  From the freshly created Classic
game, made `Playing` by its first input (a reachable state), a single tick of
`dt = 7/8 s` moves Pac-Man from `x = 14` to `x = 35/8 = 4.375` in row 23,
sailing over the walkable cell 13 checked by the wall clamp and ending inside
the wall at column 4. -/
theorem c2_tick_ends_on_wall :
    c2State.phase = GamePhase.Playing ∧
    (tick c2State (7/8)).pacman.position = (⟨35/8, 23⟩ : Position) ∧
    Maze.new.is_walkable (35/8) 23 = false ∧
    Maze.new.get_cell 23 4 = some CellType.Wall := by
  decide

-- ─── C3 ─────────────────────────────────────────────────────────────────────

/-- C3 counterexample: in `c3State`, Blinky slides from grid tile `(2, 6)` to
`(1, 6)` during the tick, and Inky decides at the centre of `(9, 5)`.  The
code commits `Left` (targeting computed from Blinky's pre-move position);
had Inky's target used Blinky's post-move position — as the claim states —
it would commit `Down`. -/
theorem c3_inky_uses_premove_blinky :
    ((update_ghosts c3State (1/8)).ghosts.get? 2).map Ghost.ghost_type = some GhostType.Inky ∧
    ((update_ghosts c3State (1/8)).ghosts.get? 2).map Ghost.direction = some Direction.Left ∧
    ((update_ghosts_postmove c3State (1/8)).ghosts.get? 2).map Ghost.direction = some Direction.Down ∧
    Direction.Left ≠ Direction.Down := by
  decide

/-- C3 amended: within a tick the ghosts are updated in list order — Blinky,
Pinky, Inky, Clyde — and every ghost's step (Inky's chase targeting included)
uses Blinky's position as captured *before* any ghost moved, not Blinky's
post-move position. -/
theorem c3_ghost_order_premove_blinky (s : GameStateInner) (dt : ℚ) (b p i c : Ghost)
    (hg : s.ghosts = [b, p, i, c])
    (hb : b.ghost_type = GhostType.Blinky)
    (hp : p.ghost_type ≠ GhostType.Blinky)
    (hi : i.ghost_type ≠ GhostType.Blinky)
    (hc : c.ghost_type ≠ GhostType.Blinky) :
    (update_ghosts s dt).ghosts =
      [ghostStep s.maze s.mode s.frightened_timer s.global_timer dt
         s.pacman.position s.pacman.direction b.position b,
       ghostStep s.maze s.mode s.frightened_timer s.global_timer dt
         s.pacman.position s.pacman.direction b.position p,
       ghostStep s.maze s.mode s.frightened_timer s.global_timer dt
         s.pacman.position s.pacman.direction b.position i,
       ghostStep s.maze s.mode s.frightened_timer s.global_timer dt
         s.pacman.position s.pacman.direction b.position c] := by
  have hscan : blinkyScan [b, p, i, c] = b.position := by
    rw [blinkyScan]
    simp [hb, hp, hi, hc]
  simp only [update_ghosts, hg, hscan, List.map]

/-- C3 amended, witness: the update of the freshly created game is the
independent per-ghost step with the pre-move Blinky position `(14, 11)`. -/
theorem c3_ghost_order_premove_blinky_witness :
    (update_ghosts (GameStateInner.new GameMode.Classic) (1/8)).ghosts =
      [ghostStep Maze.new GameMode.Classic 0 0 (1/8) (⟨14, 23⟩ : Position) Direction.Left
         (⟨14, 11⟩ : Position) (Ghost.new .Blinky ⟨14, 11⟩),
       ghostStep Maze.new GameMode.Classic 0 0 (1/8) ⟨14, 23⟩ Direction.Left ⟨14, 11⟩
         (Ghost.new .Pinky ⟨12, 14⟩),
       ghostStep Maze.new GameMode.Classic 0 0 (1/8) ⟨14, 23⟩ Direction.Left ⟨14, 11⟩
         (Ghost.new .Inky ⟨14, 14⟩),
       ghostStep Maze.new GameMode.Classic 0 0 (1/8) ⟨14, 23⟩ Direction.Left ⟨14, 11⟩
         (Ghost.new .Clyde ⟨16, 14⟩)] :=
  c3_ghost_order_premove_blinky (GameStateInner.new GameMode.Classic) (1/8)
    (Ghost.new .Blinky ⟨14, 11⟩) (Ghost.new .Pinky ⟨12, 14⟩)
    (Ghost.new .Inky ⟨14, 14⟩) (Ghost.new .Clyde ⟨16, 14⟩)
    rfl rfl (by decide) (by decide) (by decide)

-- ─── C4 ─────────────────────────────────────────────────────────────────────

/-- C4 counterexample: in `c4State` the pellet is consumed while Blinky
(mode `Scatter`, not `Eaten`) is within half a tile of Pac-Man; the pellet
makes him `Frightened` but the ghost-collision pass of the same tick
immediately turns him `Eaten`, so after the tick a previously non-`Eaten`
ghost is not `Frightened`, contradicting the claim. -/
theorem c4_frightened_ghost_eaten_same_tick :
    c4State.phase = GamePhase.Playing ∧
    (c4State.ghosts.get? 0).map Ghost.mode = some GhostMode.Scatter ∧
    Maze.new.get_cell 3 1 = some CellType.PowerPellet ∧
    (tick c4State (1/64)).pacman.position.to_grid = (1, 3) ∧
    (tick c4State (1/64)).pacman.score = 250 ∧
    ((tick c4State (1/64)).ghosts.get? 0).map Ghost.mode = some GhostMode.Eaten ∧
    GhostMode.Eaten ≠ GhostMode.Frightened := by
  decide

/-- C4 amended: when Pac-Man's cell holds a `PowerPellet`, every ghost that
was not `Eaten` ends the collision stage with its direction reversed and mode
`Frightened` — unless it is within squared distance `1/4` of Pac-Man, in
which case the same tick's collision pass immediately turns it `Eaten`
(position and everything else unchanged); ghosts already `Eaten` pass through
the stage entirely unchanged. -/
theorem c4_pellet_frightens_non_eaten (s : GameStateInner) (j : ℕ) (g : Ghost)
    (hg : s.ghosts.get? j = some g)
    (hcell : s.maze.get_cell s.pacman.position.to_grid.2 s.pacman.position.to_grid.1 =
      some CellType.PowerPellet) :
    (g.mode ≠ GhostMode.Eaten →
      (check_collisions s).ghosts.get? j = some
        { g with direction := g.direction.opposite,
                 mode := if distSq s.pacman.position g.position < 1/4 then GhostMode.Eaten
                         else GhostMode.Frightened }) ∧
    (g.mode = GhostMode.Eaten → (check_collisions s).ghosts.get? j = some g) := by
  have h1 : (check_collisions s).ghosts.get? j =
      some (collideUpd s.pacman.position (pelletUpd g)) := by
    rw [check_collisions_ghosts, pickupStage_ghosts_of_pellet s hcell, List.map_map,
      List.get?_map, hg]
    rfl
  constructor
  · intro hne
    rw [h1]
    obtain ⟨gt, gp, gd, gm, gn⟩ := g
    simp only at hne
    simp [pelletUpd, collideUpd, hne]
    try split <;> rfl
  · intro he
    rw [h1, pelletUpd, if_neg (by simp [he]), collideUpd,
      if_neg (fun hc => by rw [he] at hc; exact absurd hc.2 (by decide))]

/-- C4 amended, witness: in `c7State` (Pac-Man exactly on the pellet cell,
`blinkyNear` an eighth of a tile away in `Scatter`), the collision stage
leaves Blinky reversed and — being within half a tile — `Eaten`. -/
theorem c4_pellet_frightens_non_eaten_witness :
    blinkyNear.mode ≠ GhostMode.Eaten ∧
    (check_collisions c7State).ghosts.get? 0 = some
      { blinkyNear with direction := blinkyNear.direction.opposite,
                        mode := if distSq c7State.pacman.position blinkyNear.position < 1/4
                                then GhostMode.Eaten else GhostMode.Frightened } :=
  ⟨by decide,
   (c4_pellet_frightens_non_eaten c7State 0 blinkyNear rfl (by decide)).1 (by decide)⟩

-- ─── C5 ─────────────────────────────────────────────────────────────────────

/-- C5 counterexample: at `global_timer = 0` with a frightened ghost at
`x = -0.5` (the left end of the legal range), the seed is `-1.5`; the code
truncates toward zero (`-1`) and applies Rust's `%` (sign of the dividend),
yielding `(-1, -7)` — outside the claimed ranges `[0,28) × [0,31)` and
different from the claimed `(floor(seed) mod 28, floor(seed)·7 mod 31)
= (26, 17)`. -/
theorem c5_negative_seed_escapes_range :
    c5Ghost.mode = GhostMode.Frightened ∧
    (0:ℚ) ≤ 0 ∧ -(1/2 : ℚ) ≤ c5Ghost.position.x ∧ c5Ghost.position.x < 55/2 ∧
    get_ghost_target c5Ghost ⟨1, 1⟩ Direction.Left ⟨1, 1⟩ 0 = (-1, -7) ∧
    (Int.emod (Rat.floor ((0 : ℚ) * 10 + c5Ghost.position.x * 3)) 28,
     Int.emod (Rat.floor ((0 : ℚ) * 10 + c5Ghost.position.x * 3) * 7) 31) = (26, 17) ∧
    ((-1 : ℤ), (-7 : ℤ)) ≠ ((26 : ℤ), (17 : ℤ)) ∧ ¬(0 ≤ (-1 : ℤ)) := by
  decide

-- ─── C6 ─────────────────────────────────────────────────────────────────────

/-- C6 counterexample: `c6Ghost` is an `Eaten` ghost crossing the centre of
the ghost-house cell `(13, 13)` whose three non-reverse neighbours are all
non-walkable (a dead end by the claim's definition) — yet the committed
direction is `Up`, not the reverse: an `Eaten` ghost counts every direction
as an option, so the dead-end reversal never fires for it. -/
theorem c6_eaten_ghost_ignores_dead_end :
    deadEndB Maze.new Direction.Up 13 13 = true ∧
    chooseDir Maze.new GhostMode.Eaten Direction.Up 13 13 (14, 11) = Direction.Up ∧
    (ghostStep Maze.new GameMode.Classic 0 0 (1/64) ⟨1, 1⟩ Direction.Left ⟨1, 1⟩ c6Ghost).direction
      = Direction.Up ∧
    (ghostStep Maze.new GameMode.Classic 0 0 (1/64) ⟨1, 1⟩ Direction.Left ⟨1, 1⟩ c6Ghost).position
      = (⟨13, 13⟩ : Position) ∧
    Direction.Up ≠ Direction.Up.opposite := by
  decide

/-- A reverse-direction candidate is skipped. -/
theorem chooseDirStep_skip (m : Maze) (gmode : GhostMode) (dir : Direction)
    (cx cy : ℚ) (target : ℤ × ℤ) (acc : DirAcc) (d : Direction)
    (h : d = dir.opposite) :
    chooseDirStep m gmode dir cx cy target acc d = acc := by
  simp [chooseDirStep, h]

/-- A non-option candidate leaves the accumulator unchanged. -/
theorem chooseDirStep_noopt (m : Maze) (gmode : GhostMode) (dir : Direction)
    (cx cy : ℚ) (target : ℤ × ℤ) (acc : DirAcc) (d : Direction)
    (h1 : d ≠ dir.opposite)
    (h2 : ¬(m.is_walkable (cx + d.to_vector.1) (cy + d.to_vector.2) = true ∨
      gmode = GhostMode.Eaten)) :
    chooseDirStep m gmode dir cx cy target acc d = acc := by
  simp only [chooseDirStep, if_neg h1, if_neg h2]

/-- An option candidate increments `options`... -/
theorem chooseDirStep_options (m : Maze) (gmode : GhostMode) (dir : Direction)
    (cx cy : ℚ) (target : ℤ × ℤ) (acc : DirAcc) (d : Direction)
    (h1 : d ≠ dir.opposite)
    (h2 : m.is_walkable (cx + d.to_vector.1) (cy + d.to_vector.2) = true ∨
      gmode = GhostMode.Eaten) :
    (chooseDirStep m gmode dir cx cy target acc d).options = acc.options + 1 := by
  obtain ⟨b, mq, o⟩ := acc
  simp only [chooseDirStep, if_neg h1, if_pos h2]
  cases mq with
  | none => rfl
  | some mn =>
    dsimp only
    split
    · rfl
    · rfl

/-- ... and commits either the candidate itself or the previous best. -/
theorem chooseDirStep_best (m : Maze) (gmode : GhostMode) (dir : Direction)
    (cx cy : ℚ) (target : ℤ × ℤ) (acc : DirAcc) (d : Direction)
    (h1 : d ≠ dir.opposite)
    (h2 : m.is_walkable (cx + d.to_vector.1) (cy + d.to_vector.2) = true ∨
      gmode = GhostMode.Eaten) :
    (chooseDirStep m gmode dir cx cy target acc d).best = d ∨
    (chooseDirStep m gmode dir cx cy target acc d).best = acc.best := by
  obtain ⟨b, mq, o⟩ := acc
  simp only [chooseDirStep, if_neg h1, if_pos h2]
  cases mq with
  | none => exact Or.inl rfl
  | some mn =>
    dsimp only
    split
    · exact Or.inl rfl
    · exact Or.inr rfl

/-- The candidate loop never commits the reverse direction: the skip guard
keeps it out of `best`. -/
theorem chooseDir_foldl_best_ne (m : Maze) (gmode : GhostMode) (dir : Direction)
    (cx cy : ℚ) (target : ℤ × ℤ) :
    ∀ (l : List Direction) (acc : DirAcc), acc.best ≠ dir.opposite →
      (l.foldl (chooseDirStep m gmode dir cx cy target) acc).best ≠ dir.opposite := by
  intro l
  induction l with
  | nil => exact fun acc h => h
  | cons d l ih =>
    intro acc h
    rw [List.foldl_cons]
    refine ih _ ?_
    by_cases h1 : d = dir.opposite
    · rw [chooseDirStep_skip m gmode dir cx cy target acc d h1]; exact h
    · by_cases h2 : m.is_walkable (cx + d.to_vector.1) (cy + d.to_vector.2) = true ∨
          gmode = GhostMode.Eaten
      · rcases chooseDirStep_best m gmode dir cx cy target acc d h1 h2 with hb | hb
        · rw [hb]; exact h1
        · rw [hb]; exact h
      · rw [chooseDirStep_noopt m gmode dir cx cy target acc d h1 h2]; exact h

/-- The `options` counter of the candidate loop is zero exactly when no
processed candidate was an option. -/
theorem chooseDir_foldl_options_zero (m : Maze) (gmode : GhostMode) (dir : Direction)
    (cx cy : ℚ) (target : ℤ × ℤ) :
    ∀ (l : List Direction) (acc : DirAcc),
      ((l.foldl (chooseDirStep m gmode dir cx cy target) acc).options = 0 ↔
        (acc.options = 0 ∧ ∀ d ∈ l, d ≠ dir.opposite →
          ¬(m.is_walkable (cx + d.to_vector.1) (cy + d.to_vector.2) = true ∨
            gmode = GhostMode.Eaten))) := by
  intro l
  induction l with
  | nil => simp
  | cons d l ih =>
    intro acc
    rw [List.foldl_cons, ih]
    by_cases h1 : d = dir.opposite
    · rw [chooseDirStep_skip m gmode dir cx cy target acc d h1]
      simp only [List.mem_cons]
      constructor
      · rintro ⟨h2, h3⟩
        exact ⟨h2, fun e he => he.elim (fun hed => (hed ▸ fun hne => absurd h1 hne))
          (fun hel => h3 e hel)⟩
      · rintro ⟨h2, h3⟩
        exact ⟨h2, fun e hel => h3 e (Or.inr hel)⟩
    · by_cases h2 : m.is_walkable (cx + d.to_vector.1) (cy + d.to_vector.2) = true ∨
          gmode = GhostMode.Eaten
      · rw [chooseDirStep_options m gmode dir cx cy target acc d h1 h2]
        simp only [Nat.succ_ne_zero, false_and, false_iff, not_and, not_forall]
        intro _
        exact ⟨d, by simp, h1, fun hf => hf h2⟩
      · rw [chooseDirStep_noopt m gmode dir cx cy target acc d h1 h2]
        simp only [List.mem_cons]
        constructor
        · rintro ⟨h3, h4⟩
          refine ⟨h3, fun e he hne => ?_⟩
          rcases he with rfl | hel
          · exact h2
          · exact h4 e hel hne
        · rintro ⟨h3, h4⟩
          exact ⟨h3, fun e hel => h4 e (Or.inr hel)⟩

/-- Every direction occurs in the candidate list. -/
theorem direction_mem_candidates (d : Direction) :
    d ∈ [Direction.Up, Direction.Left, Direction.Down, Direction.Right] := by
  cases d <;> simp

/-- C6 amended: at a tile-center decision, a non-`Eaten` AI ghost commits the
reverse direction exactly when all three other neighbours are non-walkable
(it reverses at dead ends, and only there); an `Eaten` ghost treats every
cell as traversable, so it never commits the reverse — not even at a
walkability dead end. -/
theorem c6_no_reverse_except_dead_end (m : Maze) (gmode : GhostMode) (dir : Direction)
    (cx cy : ℚ) (target : ℤ × ℤ) :
    (gmode ≠ GhostMode.Eaten →
      ((chooseDir m gmode dir cx cy target = dir.opposite) ↔ deadEndB m dir cx cy = true)) ∧
    (gmode = GhostMode.Eaten → chooseDir m gmode dir cx cy target ≠ dir.opposite) := by
  have hopt := chooseDir_foldl_options_zero m gmode dir cx cy target
    [Direction.Up, Direction.Left, Direction.Down, Direction.Right]
    { best := dir, minSq := none, options := 0 }
  have hbest := chooseDir_foldl_best_ne m gmode dir cx cy target
    [Direction.Up, Direction.Left, Direction.Down, Direction.Right]
    { best := dir, minSq := none, options := 0 } (opposite_ne dir)
  constructor
  · intro hne
    rw [chooseDir]
    constructor
    · intro hres
      by_cases ho : ([Direction.Up, Direction.Left, Direction.Down, Direction.Right].foldl
          (chooseDirStep m gmode dir cx cy target)
          { best := dir, minSq := none, options := 0 }).options = 0
      · have hall := (hopt.mp ho).2
        rw [deadEndB, List.all_eq_true]
        intro d hd
        rw [decide_eq_true_eq]
        by_cases hdo : d = dir.opposite
        · exact Or.inl hdo
        · have := hall d hd hdo
          rw [not_or] at this
          exact Or.inr (by simpa using this.1)
      · rw [if_neg ho] at hres
        exact absurd hres hbest
    · intro hde
      rw [if_pos]
      rw [hopt]
      refine ⟨rfl, fun d hd hdo hcond => ?_⟩
      have := (List.all_eq_true.mp hde) d hd
      rw [decide_eq_true_eq] at this
      rcases this with h | h
      · exact hdo h
      · rcases hcond with hw | he
        · rw [h] at hw; exact Bool.false_ne_true hw
        · exact hne he
  · intro he
    rw [chooseDir]
    have ho : ¬ ([Direction.Up, Direction.Left, Direction.Down, Direction.Right].foldl
        (chooseDirStep m gmode dir cx cy target)
        { best := dir, minSq := none, options := 0 }).options = 0 := by
      rw [hopt]
      rintro ⟨-, hall⟩
      exact hall dir (direction_mem_candidates dir) (opposite_ne dir) (Or.inr he)
    rw [if_neg ho]
    exact hbest

/-- C6 amended, witness: a live intersection (Inky's decision of `c3State`:
not a dead end, no reverse) and the eaten case at the `(13, 13)` dead end. -/
theorem c6_no_reverse_except_dead_end_witness :
    ((chooseDir Maze.new GhostMode.Chase Direction.Left 9 5 (0, 14) = Direction.Left.opposite) ↔
      deadEndB Maze.new Direction.Left 9 5 = true) ∧
    chooseDir Maze.new GhostMode.Eaten Direction.Up 13 13 (14, 11) ≠ Direction.Up.opposite :=
  ⟨(c6_no_reverse_except_dead_end Maze.new GhostMode.Chase Direction.Left 9 5 (0, 14)).1
      (by decide),
   (c6_no_reverse_except_dead_end Maze.new GhostMode.Eaten Direction.Up 13 13 (14, 11)).2 rfl⟩

-- ─── C7 ─────────────────────────────────────────────────────────────────────

/-- C7 counterexample: `c7State` satisfies every condition of the claim —
`Playing`, exactly one ghost (Blinky, `Scatter`) within squared distance
`1/4` of Pac-Man, dots staying positive — yet because Pac-Man's cell holds a
`PowerPellet`, the pellet handler frightens Blinky *before* the collision
pass, so no life is lost and the phase stays `Playing` instead of `Paused`. -/
theorem c7_pellet_preempts_lethal_collision :
    c7State.phase = GamePhase.Playing ∧
    blinkyNear.mode = GhostMode.Scatter ∧
    distSq c7State.pacman.position blinkyNear.position < 1/4 ∧
    ((c7State.ghosts.drop 1).all fun g =>
      decide (¬ distSq c7State.pacman.position g.position < 1/4)) = true ∧
    (check_collisions c7State).dots_remaining = 99 ∧
    (check_collisions c7State).pacman.lives = c7State.pacman.lives ∧
    (check_collisions c7State).phase = GamePhase.Playing := by
  decide

/-- Rust's `%` agrees with the mathematical `mod` on non-negative operands. -/
theorem tmod_eq_emod_of_nonneg (a b : ℤ) (ha : 0 ≤ a) (hb : 0 ≤ b) :
    Int.tmod a b = a % b := by
  obtain ⟨m, rfl⟩ := Int.eq_ofNat_of_zero_le ha
  obtain ⟨n, rfl⟩ := Int.eq_ofNat_of_zero_le hb
  rfl

/-- C5 amended: the claim's formula is correct exactly on non-negative seeds.
For every frightened ghost and `global_timer` with `10·t + 3·x ≥ 0`, the
target is `(⌊seed⌋ mod 28, ⌊seed⌋·7 mod 31)` with the mathematical `mod`, and
both components lie in `[0, 28) × [0, 31)`.  (For negative seeds the code
truncates toward zero and uses Rust's sign-following `%`, see the
counterexample.) -/
theorem c5_frightened_target_nonneg_seed (g : Ghost) (pacPos : Position)
    (pacDir : Direction) (blinkyPos : Position) (t : ℚ)
    (hm : g.mode = GhostMode.Frightened)
    (hseed : 0 ≤ t * 10 + g.position.x * 3) :
    get_ghost_target g pacPos pacDir blinkyPos t =
      (⌊t * 10 + g.position.x * 3⌋ % 28, (⌊t * 10 + g.position.x * 3⌋ * 7) % 31) ∧
    0 ≤ ⌊t * 10 + g.position.x * 3⌋ % 28 ∧ ⌊t * 10 + g.position.x * 3⌋ % 28 < 28 ∧
    0 ≤ (⌊t * 10 + g.position.x * 3⌋ * 7) % 31 ∧ (⌊t * 10 + g.position.x * 3⌋ * 7) % 31 < 31 := by
  have hfl : 0 ≤ ⌊t * 10 + g.position.x * 3⌋ := Int.floor_nonneg.mpr hseed
  have htr : rtrunc (t * 10 + g.position.x * 3) = ⌊t * 10 + g.position.x * 3⌋ := by
    rw [rtrunc, if_pos hseed, ratFloor_eq]
  refine ⟨?_, Int.emod_nonneg _ (by norm_num), Int.emod_lt_of_pos _ (by norm_num),
    Int.emod_nonneg _ (by norm_num), Int.emod_lt_of_pos _ (by norm_num)⟩
  simp only [get_ghost_target, hm, htr]
  rw [tmod_eq_emod_of_nonneg _ _ hfl (by norm_num),
    tmod_eq_emod_of_nonneg _ _ (by positivity) (by norm_num)]

/-- C5 amended, witness: `t = 3`, ghost at `x = 2` — seed `36`, target
`(36 mod 28, 252 mod 31) = (8, 4)`. -/
theorem c5_frightened_target_nonneg_seed_witness :
    c5GhostPos.mode = GhostMode.Frightened ∧
    (0 : ℚ) ≤ 3 * 10 + c5GhostPos.position.x * 3 ∧
    get_ghost_target c5GhostPos ⟨1, 1⟩ Direction.Left ⟨1, 1⟩ 3 =
      (⌊(3 : ℚ) * 10 + c5GhostPos.position.x * 3⌋ % 28,
       (⌊(3 : ℚ) * 10 + c5GhostPos.position.x * 3⌋ * 7) % 31) ∧
    get_ghost_target c5GhostPos ⟨1, 1⟩ Direction.Left ⟨1, 1⟩ 3 = (8, 4) :=
  ⟨rfl, by decide,
   (c5_frightened_target_nonneg_seed c5GhostPos ⟨1, 1⟩ Direction.Left ⟨1, 1⟩ 3 rfl (by decide)).1,
   by decide⟩

/-- A non-colliding ghost changes nothing but the processed list. -/
theorem ghostCollide_skip (p : Position) (acc : CAcc) (g : Ghost)
    (h : ¬ distSq p g.position < 1/4) :
    ghostCollide p acc g = { acc with gs := acc.gs ++ [g] } := by
  rw [ghostCollide, if_neg h]

/-- A colliding `Chase`/`Scatter` ghost costs a life (floored at zero) and
writes the phase. -/
theorem ghostCollide_lethal (p : Position) (acc : CAcc) (g : Ghost)
    (h : distSq p g.position < 1/4)
    (hm : g.mode = GhostMode.Chase ∨ g.mode = GhostMode.Scatter) :
    ghostCollide p acc g =
      { acc with lives := acc.lives - 1,
                 phase := if acc.lives - 1 = 0 then GamePhase.GameOver else GamePhase.Paused,
                 gs := acc.gs ++ [g] } := by
  have hl : (if 0 < acc.lives then acc.lives - 1 else acc.lives) = acc.lives - 1 := by
    cases acc.lives <;> simp
  rcases hm with hm | hm <;>
    · simp only [ghostCollide, hm, if_pos h]
      rw [hl]

/-- C7 amended: in a `Playing` state in which, after movement, exactly one
ghost is within squared distance `1/4` of Pac-Man, that ghost is in `Chase`
or `Scatter`, Pac-Man's cell does **not** hold a `PowerPellet` (which would
frighten the ghost before the collision pass), and the dot count stays
positive, the collision stage decrements `lives` by one (flooring at zero)
and sets the phase to `GameOver` if the result is zero, else `Paused`. -/
theorem c7_lethal_collision_costs_life (s : GameStateInner) (g0 g1 g2 g3 : Ghost)
    (j : Fin 4)
    (hg : s.ghosts = [g0, g1, g2, g3])
    (hphase : s.phase = GamePhase.Playing)
    (hnp : s.maze.get_cell s.pacman.position.to_grid.2 s.pacman.position.to_grid.1 ≠
      some CellType.PowerPellet)
    (hclose : distSq s.pacman.position ([g0, g1, g2, g3].get j).position < 1/4)
    (hmode : ([g0, g1, g2, g3].get j).mode = GhostMode.Chase ∨
      ([g0, g1, g2, g3].get j).mode = GhostMode.Scatter)
    (hfar : ∀ k : Fin 4, k ≠ j →
      ¬ distSq s.pacman.position ([g0, g1, g2, g3].get k).position < 1/4)
    (hdots : dotsAfterPickup s ≠ 0) :
    (check_collisions s).pacman.lives = s.pacman.lives - 1 ∧
    (check_collisions s).phase =
      (if s.pacman.lives - 1 = 0 then GamePhase.GameOver else GamePhase.Paused) := by
  have hgs : (pickupStage s).ghosts = [g0, g1, g2, g3] := by
    rw [pickupStage_ghosts_of_no_pellet s hnp, hg]
  have hpos := pickupStage_pacman_position s
  have hlv := pickupStage_pacman_lives s
  have hph := pickupStage_phase s
  have hdt : ¬ (pickupStage s).dots_remaining = 0 := by rw [pickupStage_dots]; exact hdots
  fin_cases j
  · have hc : distSq s.pacman.position g0.position < 1/4 := by simpa using hclose
    have hm : g0.mode = GhostMode.Chase ∨ g0.mode = GhostMode.Scatter := by simpa using hmode
    have h1 : ¬ distSq s.pacman.position g1.position < 1/4 := by simpa using hfar 1 (by decide)
    have h2 : ¬ distSq s.pacman.position g2.position < 1/4 := by simpa using hfar 2 (by decide)
    have h3 : ¬ distSq s.pacman.position g3.position < 1/4 := by simpa using hfar 3 (by decide)
    simp only [check_collisions, hgs, hpos, hlv, hph, List.foldl_cons, List.foldl_nil]
    rw [ghostCollide_lethal _ _ _ hc hm, ghostCollide_skip _ _ _ h1,
      ghostCollide_skip _ _ _ h2, ghostCollide_skip _ _ _ h3, if_neg hdt]
    exact ⟨rfl, rfl⟩
  · have hc : distSq s.pacman.position g1.position < 1/4 := by simpa using hclose
    have hm : g1.mode = GhostMode.Chase ∨ g1.mode = GhostMode.Scatter := by simpa using hmode
    have h0 : ¬ distSq s.pacman.position g0.position < 1/4 := by simpa using hfar 0 (by decide)
    have h2 : ¬ distSq s.pacman.position g2.position < 1/4 := by simpa using hfar 2 (by decide)
    have h3 : ¬ distSq s.pacman.position g3.position < 1/4 := by simpa using hfar 3 (by decide)
    simp only [check_collisions, hgs, hpos, hlv, hph, List.foldl_cons, List.foldl_nil]
    rw [ghostCollide_skip _ _ _ h0, ghostCollide_lethal _ _ _ hc hm,
      ghostCollide_skip _ _ _ h2, ghostCollide_skip _ _ _ h3, if_neg hdt]
    exact ⟨rfl, rfl⟩
  · have hc : distSq s.pacman.position g2.position < 1/4 := by simpa using hclose
    have hm : g2.mode = GhostMode.Chase ∨ g2.mode = GhostMode.Scatter := by simpa using hmode
    have h0 : ¬ distSq s.pacman.position g0.position < 1/4 := by simpa using hfar 0 (by decide)
    have h1 : ¬ distSq s.pacman.position g1.position < 1/4 := by simpa using hfar 1 (by decide)
    have h3 : ¬ distSq s.pacman.position g3.position < 1/4 := by simpa using hfar 3 (by decide)
    simp only [check_collisions, hgs, hpos, hlv, hph, List.foldl_cons, List.foldl_nil]
    rw [ghostCollide_skip _ _ _ h0, ghostCollide_skip _ _ _ h1,
      ghostCollide_lethal _ _ _ hc hm, ghostCollide_skip _ _ _ h3, if_neg hdt]
    exact ⟨rfl, rfl⟩
  · have hc : distSq s.pacman.position g3.position < 1/4 := by simpa using hclose
    have hm : g3.mode = GhostMode.Chase ∨ g3.mode = GhostMode.Scatter := by simpa using hmode
    have h0 : ¬ distSq s.pacman.position g0.position < 1/4 := by simpa using hfar 0 (by decide)
    have h1 : ¬ distSq s.pacman.position g1.position < 1/4 := by simpa using hfar 1 (by decide)
    have h2 : ¬ distSq s.pacman.position g2.position < 1/4 := by simpa using hfar 2 (by decide)
    simp only [check_collisions, hgs, hpos, hlv, hph, List.foldl_cons, List.foldl_nil]
    rw [ghostCollide_skip _ _ _ h0, ghostCollide_skip _ _ _ h1,
      ghostCollide_skip _ _ _ h2, ghostCollide_lethal _ _ _ hc hm, if_neg hdt]
    exact ⟨rfl, rfl⟩

/-- C7 amended, witness: `c7WitnessState` (Pac-Man on the plain dot `(1,1)`,
`blinkyChasing` within half a tile in `Chase`, 5 dots left, 3 lives): the
collision stage leaves 2 lives and phase `Paused`. -/
theorem c7_lethal_collision_costs_life_witness :
    (check_collisions c7WitnessState).pacman.lives = c7WitnessState.pacman.lives - 1 ∧
    (check_collisions c7WitnessState).phase =
      (if c7WitnessState.pacman.lives - 1 = 0 then GamePhase.GameOver else GamePhase.Paused) :=
  c7_lethal_collision_costs_life c7WitnessState blinkyChasing
    (Ghost.new .Pinky ⟨12, 14⟩) (Ghost.new .Inky ⟨14, 14⟩) (Ghost.new .Clyde ⟨16, 14⟩)
    0 rfl rfl (by decide) (by decide) (by decide) (by decide) (by decide)

-- ─── C8 ─────────────────────────────────────────────────────────────────────

/-- Row 0 of the maze is entirely `Wall`. -/
theorem maze_row0_wall : ∀ c : ℕ, c < 28 → Maze.new.get_cell 0 c = some CellType.Wall := by
  decide

/-- C8: `is_walkable` is exactly the claimed predicate: true iff `round(x)`
falls outside the column range `[0, 28)`, or the cell at
`(round(y), round(x))` exists and is neither `Wall` nor `GhostHouse`; absent
cells — negative `round(y)` included — are non-walkable.  (For negative
`round(y)` the code saturates to row 0, which is all walls, so the verdicts
coincide.) -/
theorem c8_is_walkable_iff_spec (x y : ℚ) :
    Maze.new.is_walkable x y = walkableSpecB x y := by
  have hw : ((Maze.new.width : ℕ) : ℤ) = 28 := rfl
  simp only [Maze.is_walkable, walkableSpecB, hw]
  by_cases hx : fround x < 0 ∨ (28 : ℤ) ≤ fround x
  · rw [if_pos hx, if_pos hx]
  · rw [if_neg hx, if_neg hx]
    push_neg at hx
    by_cases hy : 0 ≤ fround y
    · rw [cellAtZ, if_pos ⟨hy, hx.1⟩]
    · rw [cellAtZ, if_neg (by tauto)]
      rw [Int.toNat_of_nonpos (le_of_lt (not_le.mp hy))]
      rw [maze_row0_wall (fround x).toNat ((Int.toNat_lt' (by norm_num)).mpr hx.2)]
      rfl

-- ─── C9 ─────────────────────────────────────────────────────────────────────

/-- C9: `create` succeeds exactly on strings lowercasing to `"classic"` or
`"pvp"` (yielding the matching mode); any other string is a hard error whose
message contains the offending value verbatim. -/
theorem c9_create_validates_mode (s : String) :
    (asciiLower s = "classic" →
      ∃ g, gameStateNew s = Except.ok g ∧ g.mode = GameMode.Classic) ∧
    (asciiLower s = "pvp" →
      ∃ g, gameStateNew s = Except.ok g ∧ g.mode = GameMode.PvP) ∧
    (asciiLower s ≠ "classic" → asciiLower s ≠ "pvp" →
      ∃ pre post, gameStateNew s = Except.error (pre ++ s ++ post)) := by
  refine ⟨fun h1 => ?_, fun h2 => ?_, fun h1 h2 => ?_⟩
  · exact ⟨GameStateInner.new GameMode.Classic, by rw [gameStateNew, if_pos h1], rfl⟩
  · refine ⟨GameStateInner.new GameMode.PvP, ?_, rfl⟩
    have h1 : asciiLower s ≠ "classic" := by rw [h2]; decide
    rw [gameStateNew, if_neg h1, if_pos h2]
  · exact ⟨"Invalid game mode: \x27", "\x27. Use \x27classic\x27 or \x27pvp\x27.",
      by rw [gameStateNew, if_neg h1, if_neg h2]⟩

/-- C9 witness: the spec's own scenarios — `create("arcade")` fails with a
message containing `"arcade"`; `create("PVP")` and `create("classic")`
succeed with the right modes. -/
theorem c9_create_validates_mode_witness :
    (∃ pre post, gameStateNew "arcade" = Except.error (pre ++ "arcade" ++ post)) ∧
    (∃ g, gameStateNew "PVP" = Except.ok g ∧ g.mode = GameMode.PvP) ∧
    (∃ g, gameStateNew "classic" = Except.ok g ∧ g.mode = GameMode.Classic) :=
  ⟨(c9_create_validates_mode "arcade").2.2 (by decide) (by decide),
   (c9_create_validates_mode "PVP").2.1 (by decide),
   (c9_create_validates_mode "classic").1 (by decide)⟩

-- ─── C10 ────────────────────────────────────────────────────────────────────

/-- C10: in any tick from a `Playing` state that ends with `dots_remaining =
0`, the final phase is `Paused`: the level-clear assignment runs after the
ghost-collision handling and overwrites even a `GameOver` set earlier in the
same tick. -/
theorem c10_level_clear_final_phase (s : GameStateInner) (dt : ℚ)
    (hphase : s.phase = GamePhase.Playing)
    (hdots : (tick s dt).dots_remaining = 0) :
    (tick s dt).phase = GamePhase.Paused := by
  have hne : ¬ s.phase ≠ GamePhase.Playing := by simp [hphase]
  simp only [tick, if_neg hne] at hdots ⊢
  exact check_collisions_paused_of_no_dots _ hdots

/-- C10 witness: `c10State` eats its last dot in the very tick in which a
`Scatter` ghost kills Pac-Man's last life (`GameOver` is written by the
collision pass) — the final phase is nevertheless `Paused`. -/
theorem c10_level_clear_final_phase_witness :
    c10State.phase = GamePhase.Playing ∧
    (tick c10State (1/64)).dots_remaining = 0 ∧
    (tick c10State (1/64)).pacman.lives = 0 ∧
    (tick c10State (1/64)).phase = GamePhase.Paused :=
  ⟨rfl, by decide, by decide,
   c10_level_clear_final_phase c10State (1/64) rfl (by decide)⟩

end PacmanRs
